import Mathlib

set_option maxRecDepth 4000

/-!
Shallow embedding of the Excel→Parquet conversion engine of
`src/converter.py` and the GUI worker of `src/main.py`.

Modelling conventions:
* pandas DataFrames are ordered lists of named, dtype-tagged columns of cells;
* finite floating-point values are carried exactly as rationals (the code never
  performs float arithmetic on them — it only passes them through, branches on
  dtypes, and stringifies them), and the IEEE specials the code manipulates are
  explicit tags;
* in a pandas float64 / datetime64 / nullable-Int64 / object column the missing
  marker (NaN / NaT / pd.NA / None) is rendered uniformly as `RawCell.absent`;
* external effects (file existence, `pd.read_excel`, `pq.write_table`,
  `os.path.getsize`, the wall clock) are oracles collected in `ConvEnv`;
* the two residual nondeterministic failure sources of the arrow stage
  (`pa.Table.from_pandas` failing for environment reasons, `table.cast`
  failing) are Boolean oracles, while the deterministic, data-driven failure of
  `pa.Table.from_pandas` on mixed object columns is modelled explicitly.
-/

inductive PyFloat
  | finite (q : ℚ)
  | posInf
  | negInf
  deriving DecidableEq

inductive RawCell
  | int (n : ℤ)
  | float (x : PyFloat)
  | bool (b : Bool)
  | text (s : String)
  | timestamp (t : ℤ)
  | absent
  deriving DecidableEq

/-- pandas column dtypes that the converter branches on.  `intNullable` is the
pandas extension dtype "Int64"; `object` is the loose dtype holding strings or
mixed values. -/
inductive Dtype
  | int64
  | intNullable
  | float64
  | boolDtype
  | datetime64
  | object
  deriving DecidableEq

/-- Column headers may be textual or numeric; `df.columns.astype(str)` forces
them to string form. -/
inductive ColName
  | str (s : String)
  | num (n : ℤ)
  deriving DecidableEq

def ColName.toStr : ColName → String
  | ColName.str s => s
  | ColName.num n => toString n

structure PdColumn where
  dtype : Dtype
  cells : List RawCell
  deriving DecidableEq

structure DataFrame where
  cols : List (ColName × PdColumn)
  deriving DecidableEq

/-- pd.api.types.is_integer_dtype: true for numpy int64 and pandas Int64. -/
def is_integer_dtype : Dtype → Bool
  | Dtype.int64 => true
  | Dtype.intNullable => true
  | _ => false

def is_float_dtype : Dtype → Bool
  | Dtype.float64 => true
  | _ => false

def is_bool_dtype : Dtype → Bool
  | Dtype.boolDtype => true
  | _ => false

def is_datetime64_any_dtype : Dtype → Bool
  | Dtype.datetime64 => true
  | _ => false

/-- pd.api.types.is_string_dtype holds for the object dtype. -/
def is_string_dtype : Dtype → Bool
  | Dtype.object => true
  | _ => false

/-- Body of the per-column loop of `clean_dataframe_for_powerbi`
(src/converter.py lines 37-62): the object-dtype `try` block ends in `pass`
(dead code), integer dtypes are re-typed to nullable "Int64", floats and
datetimes are deliberately left untouched ("Şimdilik float kalsın").
Cell values are never changed. -/
def cleanColumn (c : PdColumn) : PdColumn :=
  if is_integer_dtype c.dtype then { dtype := Dtype.intNullable, cells := c.cells } else c

/-- src/converter.py lines 28-64: stringify the column names, then run the
per-column loop. -/
def clean_dataframe_for_powerbi (df : DataFrame) : DataFrame :=
  { cols := df.cols.map (fun p => (ColName.str p.1.toStr, cleanColumn p.2)) }

inductive PaType
  | int64
  | float64
  | boolType
  | timestampMs
  | timestampNs
  | utf8
  deriving DecidableEq

structure PaField where
  name : String
  typ : PaType
  nullable : Bool
  deriving DecidableEq

/-- Dtype→arrow mapping of `create_powerbi_compatible_schema`
(src/converter.py lines 74-91), including its elif order and its
string fallback; it picks `pa.timestamp('ms')`. -/
def paTypeForSchema (dt : Dtype) : PaType :=
  if is_integer_dtype dt then PaType.int64
  else if is_float_dtype dt then PaType.float64
  else if is_bool_dtype dt then PaType.boolType
  else if is_datetime64_any_dtype dt then PaType.timestampMs
  else if is_string_dtype dt then PaType.utf8
  else PaType.utf8

/-- src/converter.py lines 67-95: one field per column, in order, each field
explicitly `nullable=True` (line 93). -/
def create_powerbi_compatible_schema (df : DataFrame) : List PaField :=
  df.cols.map (fun p => { name := p.1.toStr, typ := paTypeForSchema p.2.dtype, nullable := true })

inductive PaValue
  | int (n : ℤ)
  | float (x : PyFloat)
  | bool (b : Bool)
  | str (s : String)
  | timestamp (t : ℤ)
  | null
  deriving DecidableEq

/-- Value-level conversion performed by `pa.Table.from_pandas`: present cells
carry over, the missing marker becomes an arrow null. -/
def arrowValueOfCell : RawCell → PaValue
  | RawCell.int n => PaValue.int n
  | RawCell.float x => PaValue.float x
  | RawCell.bool b => PaValue.bool b
  | RawCell.text s => PaValue.str s
  | RawCell.timestamp t => PaValue.timestamp t
  | RawCell.absent => PaValue.null

/-- Arrow type inferred by `pa.Table.from_pandas` from a non-object pandas
dtype (note: datetime64[ns] infers as timestamp[ns], unlike the dead
`create_powerbi_compatible_schema` which picks ms). -/
def inferPaTypeOfDtype : Dtype → PaType
  | Dtype.int64 => PaType.int64
  | Dtype.intNullable => PaType.int64
  | Dtype.float64 => PaType.float64
  | Dtype.boolDtype => PaType.boolType
  | Dtype.datetime64 => PaType.timestampNs
  | Dtype.object => PaType.utf8

def isPresent : RawCell → Bool
  | RawCell.absent => false
  | _ => true

def isTextCell : RawCell → Bool
  | RawCell.text _ => true
  | _ => false

def isIntCell : RawCell → Bool
  | RawCell.int _ => true
  | _ => false

def isBoolCell : RawCell → Bool
  | RawCell.bool _ => true
  | _ => false

def isNumCell : RawCell → Bool
  | RawCell.int _ => true
  | RawCell.float _ => true
  | _ => false

/-- Value-level inference `pa.Table.from_pandas` performs on an object-dtype
column: a homogeneous column of texts / ints / bools / numerics infers a
matching arrow type; a column mixing text with non-text raises ArrowInvalid. -/
def objectInference (cells : List RawCell) : Except String PaType :=
  if (cells.filter isPresent).all isTextCell then Except.ok PaType.utf8
  else if (cells.filter isPresent).all isIntCell then Except.ok PaType.int64
  else if (cells.filter isPresent).all isBoolCell then Except.ok PaType.boolType
  else if (cells.filter isPresent).all isNumCell then Except.ok PaType.float64
  else Except.error "pyarrow.lib.ArrowInvalid: could not convert mixed object column"

structure ArrowTable where
  schema : List PaField
  columns : List (List PaValue)
  deriving DecidableEq

/-- One column through `pa.Table.from_pandas`: object columns go through
value-level inference and may fail; typed columns convert directly. -/
def inferColumn (c : PdColumn) : Except String (PaType × List PaValue) :=
  match c.dtype with
  | Dtype.object =>
    match objectInference c.cells with
    | Except.error e => Except.error e
    | Except.ok ty => Except.ok (ty, c.cells.map arrowValueOfCell)
  | dt => Except.ok (inferPaTypeOfDtype dt, c.cells.map arrowValueOfCell)

def inferColumns : List (ColName × PdColumn) → Except String (List (String × PaType × List PaValue))
  | [] => Except.ok []
  | p :: rest =>
    match inferColumn p.2 with
    | Except.error e => Except.error e
    | Except.ok r =>
      match inferColumns rest with
      | Except.error e => Except.error e
      | Except.ok tail => Except.ok ((p.1.toStr, r.1, r.2) :: tail)

/-- Model of `pa.Table.from_pandas(df, preserve_index=False)`: fields inferred from the
frame are marked nullable (pyarrow marks every field it infers from pandas as
nullable). -/
def from_pandas_infer (df : DataFrame) : Except String ArrowTable :=
  match inferColumns df.cols with
  | Except.error e => Except.error e
  | Except.ok entries =>
    Except.ok
      { schema := entries.map (fun q => { name := q.1, typ := q.2.1, nullable := true }),
        columns := entries.map (fun q => q.2.2) }

/-- src/converter.py lines 154-158: rebuild the schema with every field
`with_nullable(True)`; `table.cast(new_schema)` then carries exactly that
schema. -/
def forceNullable (t : ArrowTable) : ArrowTable :=
  { schema := t.schema.map (fun f => { name := f.name, typ := f.typ, nullable := true }),
    columns := t.columns }

/-- Python `str()` of a float: integral finite values render as "1.0" style,
the specials as "inf"/"-inf".  (Non-integral finite rationals are rendered via
`toString`; no claim exercises them.) -/
def strOfPyFloat : PyFloat → String
  | PyFloat.finite q => if q.den = 1 then toString q.num ++ ".0" else toString q
  | PyFloat.posInf => "inf"
  | PyFloat.negInf => "-inf"

/-- Python `str()` of a column's missing marker, as produced by
`df.astype(str)`: float NaN → "nan", NaT → "NaT", pd.NA → "<NA>",
object None → "None". -/
def strOfAbsent : Dtype → String
  | Dtype.float64 => "nan"
  | Dtype.datetime64 => "NaT"
  | Dtype.intNullable => "<NA>"
  | _ => "None"

/-- Elementwise `str()` applied by `df.astype(str)`.  Timestamps are rendered
through `toString` of their epoch value (pandas renders an ISO datetime text;
no claim depends on the exact rendering of a present timestamp). -/
def strOfCell (dt : Dtype) : RawCell → String
  | RawCell.int n => toString n
  | RawCell.float x => strOfPyFloat x
  | RawCell.bool b => if b then "True" else "False"
  | RawCell.text s => s
  | RawCell.timestamp t => toString t
  | RawCell.absent => strOfAbsent dt

/-- src/converter.py line 163: `df_str = df_pandas.astype(str)` — EVERY cell,
missing markers included, becomes its textual form, and every column becomes
object dtype. -/
def astypeStr (df : DataFrame) : DataFrame :=
  { cols := df.cols.map (fun p =>
      (p.1, { dtype := Dtype.object,
              cells := p.2.cells.map (fun x => RawCell.text (strOfCell p.2.dtype x)) })) }

/-- src/converter.py lines 16-26: the outcome record, with the Python default
arguments (`output_file=None`, sizes 0, `elapsed=0`, `error=None`). -/
structure ConversionResult where
  success : Bool
  input_file : String
  output_file : Option String
  input_size : Nat
  output_size : Nat
  elapsed : Nat
  error : Option String
  deriving DecidableEq

/-- Oracles standing for the external collaborators of one
`convert_excel_to_parquet` run: the filesystem, `pd.read_excel`, the two
nondeterministic failure sources of the arrow stage, `pq.write_table`,
`os.path.getsize(output_path)`, and the wall clock (`tStart` at line 106,
`tEnd` at the later `time.time()` reads). -/
structure ConvEnv where
  inputPath : String
  outputPath : Option String
  fileExists : Bool
  inputSize : Nat
  readResult : Except String DataFrame
  fromPandasOk : Bool
  castOk : Bool
  writeOk : Bool
  outputSizeResult : Except String Nat
  tStart : Nat
  tEnd : Nat

/-- Root part of `os.path.splitext` for '/'-separated paths: the extension is
cut at the last dot of the final path component, provided some earlier
character of that component is not a dot (so ".bashrc" keeps its dot). -/
def splitextRoot (p : String) : String :=
  let cs := p.data
  let n := cs.length
  let b := ((List.range n).filter (fun i => decide (cs.getD i ' ' = '/'))).foldl
    (fun _ i => i + 1) 0
  let dots := (List.range n).filter
    (fun i => decide (b ≤ i) && decide (cs.getD i ' ' = '.'))
  match dots.getLast? with
  | none => p
  | some i =>
    if (List.range i).any (fun j => decide (b ≤ j) && decide (cs.getD j ' ' ≠ '.')) then
      String.mk (cs.take i)
    else p

/-- src/converter.py lines 115-117: default output path is the input with its
extension swapped for ".parquet". -/
def resolvedOutputPath (env : ConvEnv) : String :=
  match env.outputPath with
  | some o => o
  | none => splitextRoot env.inputPath ++ ".parquet"

/-- Outcome built by the `except` handler at src/converter.py lines 193-200:
only `success`, `input_file`, `elapsed` and `error` are filled in; the other
fields keep their defaults. -/
def failureResult (env : ConvEnv) (e : String) : ConversionResult :=
  { success := false, input_file := env.inputPath, output_file := none,
    input_size := 0, output_size := 0, elapsed := env.tEnd - env.tStart,
    error := some e }

/-- Progress events reach the sink only when a callback was supplied. -/
def emitIf (hasSink : Bool) (l : List Nat) : List Nat :=
  if hasSink then l else []

/-- The try/except of src/converter.py lines 142-164: attempt
`pa.Table.from_pandas` (line 151) followed by the nullable-forcing cast
(lines 154-159); on ANY failure, fall back to stringifying the WHOLE frame and
converting that (lines 161-164).  A failure of the fallback conversion itself
would escape to the outer handler. -/
def mainTableResult (env : ConvEnv) (df : DataFrame) : Except String ArrowTable :=
  if env.fromPandasOk = false then Except.error "pyarrow conversion failed"
  else
    match from_pandas_infer df with
    | Except.error e => Except.error e
    | Except.ok t =>
      if env.castOk = false then Except.error "cast to nullable schema failed"
      else Except.ok (forceNullable t)

def tableStageResult (env : ConvEnv) (df : DataFrame) : Except String ArrowTable :=
  match mainTableResult env df with
  | Except.ok t => Except.ok t
  | Except.error _ => from_pandas_infer (astypeStr df)

/-- Trace of one `convert_excel_to_parquet` run: the returned outcome, the
progress percentages delivered to the sink in order, and the table handed to
`pq.write_table` (none when the writer was never invoked). -/
structure ConvertTrace where
  result : ConversionResult
  events : List Nat
  written : Option ArrowTable
  deriving DecidableEq

/-- src/converter.py lines 97-200.  Stage order and progress checkpoints follow
the source: missing-file early return (line 109), progress 10, read, progress
30, clean, progress 50 twice (the call is duplicated at lines 135-139), the
arrow-table try/except, progress 80, `pq.write_table`, progress 100, final
`os.path.getsize(output_path)`, success outcome; any raising stage lands in
the `except` handler producing `failureResult`. -/
def convert_excel_to_parquet (env : ConvEnv) (hasSink : Bool) : ConvertTrace :=
  if env.fileExists = false then
    { result :=
        { success := false, input_file := env.inputPath, output_file := none,
          input_size := 0, output_size := 0, elapsed := 0,
          error := some "Dosya bulunamadı" },
      events := [], written := none }
  else
    match env.readResult with
    | Except.error e =>
      { result := failureResult env e, events := emitIf hasSink [10], written := none }
    | Except.ok df0 =>
      let df := clean_dataframe_for_powerbi df0
      match tableStageResult env df with
      | Except.error e =>
        { result := failureResult env e, events := emitIf hasSink [10, 30, 50, 50],
          written := none }
      | Except.ok table =>
        if env.writeOk = false then
          { result := failureResult env "SinkWriteError",
            events := emitIf hasSink [10, 30, 50, 50, 80], written := some table }
        else
          match env.outputSizeResult with
          | Except.error e =>
            { result := failureResult env e,
              events := emitIf hasSink [10, 30, 50, 50, 80, 100], written := some table }
          | Except.ok osz =>
            { result :=
                { success := true, input_file := env.inputPath,
                  output_file := some (resolvedOutputPath env),
                  input_size := env.inputSize, output_size := osz,
                  elapsed := env.tEnd - env.tStart, error := none },
              events := emitIf hasSink [10, 30, 50, 50, 80, 100],
              written := some table }

/-- Observable behaviour of one `ConversionWorker.run` (src/main.py lines
47-55): the `finished` signal payload (none when the signal was never
emitted), the table written by the underlying conversion, and the progress
signals. -/
structure WorkerRun where
  finishedSignal : Option ConversionResult
  written : Option ArrowTable
  progressSignals : List Nat
  deriving DecidableEq

/-- src/main.py lines 33-55: the worker holds the `_cancelled` flag set by
`cancel()`. -/
structure ConversionWorker where
  cancelled : Bool
  deriving DecidableEq

/-- src/main.py lines 47-55: an honoured cancellation returns from `run`
before any conversion work and before emitting any signal; otherwise the
conversion runs to completion with a progress sink attached and `finished`
carries its result. -/
def ConversionWorker.run (w : ConversionWorker) (env : ConvEnv) : WorkerRun :=
  if w.cancelled then { finishedSignal := none, written := none, progressSignals := [] }
  else
    let t := convert_excel_to_parquet env true
    { finishedSignal := some t.result, written := t.written, progressSignals := t.events }

/-- src/converter.py lines 211-212: `max_workers = min(os.cpu_count() or 4,
len(input_files))` when not supplied.  `cpu` stands for the already-resolved
`os.cpu_count() or 4`. -/
def resolveWorkers (maxWorkers : Option Nat) (cpu : Nat) (nFiles : Nat) : Nat :=
  match maxWorkers with
  | some w => w
  | none => min cpu nFiles

/-- src/converter.py lines 202-237.  `ThreadPoolExecutor` raises ValueError
when the worker bound is not positive (which the default bound is for an empty
input list); otherwise each file is converted independently and results are
collected in completion order, modelled by the index permutation `order`. -/
def convert_multiple (envs : List ConvEnv) (maxWorkers : Option Nat) (cpu : Nat)
    (hasSink : Bool) (order : List Nat) : Except String (List ConversionResult) :=
  let mw := resolveWorkers maxWorkers cpu envs.length
  if mw = 0 then Except.error "ValueError: max_workers must be greater than 0"
  else
    let futures := envs.map (fun e => (convert_excel_to_parquet e hasSink).result)
    Except.ok (order.filterMap (fun i => futures.get? i))

/-- Dtype coherence of a pandas column: a numpy int64 column holds integers, a
float64 column holds floats or the missing marker, a nullable Int64 column
integers or the marker, a bool column booleans, a datetime column timestamps
or the marker; object columns may hold anything. -/
def cellMatchesDtype (dt : Dtype) (x : RawCell) : Bool :=
  match dt, x with
  | Dtype.int64, RawCell.int _ => true
  | Dtype.intNullable, RawCell.int _ => true
  | Dtype.intNullable, RawCell.absent => true
  | Dtype.float64, RawCell.float _ => true
  | Dtype.float64, RawCell.absent => true
  | Dtype.boolDtype, RawCell.bool _ => true
  | Dtype.datetime64, RawCell.timestamp _ => true
  | Dtype.datetime64, RawCell.absent => true
  | Dtype.object, _ => true
  | _, _ => false

def columnWF (c : PdColumn) : Bool :=
  c.cells.all (cellMatchesDtype c.dtype)

def dfWF (df : DataFrame) : Bool :=
  df.cols.all (fun p => columnWF p.2)

def PaValue.isStr : PaValue → Bool
  | PaValue.str _ => true
  | _ => false

def PaValue.isNull : PaValue → Bool
  | PaValue.null => true
  | _ => false

/-- Homogeneity of one output buffer: either every value is string-or-null, or
no value is a string. -/
def columnHomogeneous (col : List PaValue) : Bool :=
  col.all (fun v => v.isStr || v.isNull) || col.all (fun v => !v.isStr)

def exceptDecEq {ε α : Type} [DecidableEq ε] [DecidableEq α] : DecidableEq (Except ε α) :=
  fun a b =>
  match a, b with
  | Except.error e, Except.error f =>
    if h : e = f then Decidable.isTrue (by rw [h])
    else Decidable.isFalse (by intro hh; cases hh; exact h rfl)
  | Except.ok x, Except.ok y =>
    if h : x = y then Decidable.isTrue (by rw [h])
    else Decidable.isFalse (by intro hh; cases hh; exact h rfl)
  | Except.error _, Except.ok _ => Decidable.isFalse (by intro hh; cases hh)
  | Except.ok _, Except.error _ => Decidable.isFalse (by intro hh; cases hh)

instance {ε α : Type} [DecidableEq ε] [DecidableEq α] : DecidableEq (Except ε α) :=
  exceptDecEq

/-! Concrete fixtures used by witnesses and counterexamples. -/

/-- A one-column integer frame. -/
def okDf : DataFrame :=
  ⟨[(ColName.str "a", ⟨Dtype.int64, [RawCell.int 1, RawCell.int 2]⟩)]⟩

/-- An environment in which every stage succeeds. -/
def envOk : ConvEnv :=
  ⟨"t.xlsx", none, true, 100, Except.ok okDf, true, true, true, Except.ok 50, 5, 9⟩

/-- The arrow table `envOk` hands to the writer. -/
def tOkTable : ArrowTable :=
  ⟨[⟨"a", PaType.int64, true⟩], [[PaValue.int 1, PaValue.int 2]]⟩

/-- Input file absent: the guard at src/converter.py line 109 fires. -/
def envMissing : ConvEnv :=
  ⟨"missing.xlsx", none, false, 0, Except.error "unused", true, true, true, Except.ok 0, 5, 9⟩

/-- Environment in which `pd.read_excel` raises. -/
def envReadFail : ConvEnv :=
  ⟨"bad.xlsx", none, true, 10, Except.error "boom", true, true, true, Except.ok 0, 5, 9⟩

/-- A float64 column whose present values are all integral, with an infinity. -/
def df6 : DataFrame :=
  ⟨[(ColName.str "c",
     ⟨Dtype.float64,
      [RawCell.float (PyFloat.finite 1), RawCell.float (PyFloat.finite 2),
       RawCell.float PyFloat.posInf, RawCell.float (PyFloat.finite 4)]⟩)]⟩

def env6 : ConvEnv :=
  ⟨"six.xlsx", none, true, 60, Except.ok df6, true, true, true, Except.ok 30, 5, 9⟩

/-- A clean integer column next to a mixed object column that makes
`pa.Table.from_pandas` raise. -/
def df1 : DataFrame :=
  ⟨[(ColName.str "a", ⟨Dtype.int64, [RawCell.int 1, RawCell.int 2]⟩),
    (ColName.str "m", ⟨Dtype.object, [RawCell.int 5, RawCell.text "x"]⟩)]⟩

def env1 : ConvEnv :=
  ⟨"one.xlsx", none, true, 10, Except.ok df1, true, true, true, Except.ok 5, 5, 9⟩

/-- A float column with a missing value next to a mixed object column that
forces the string fallback. -/
def df7 : DataFrame :=
  ⟨[(ColName.str "f", ⟨Dtype.float64, [RawCell.float (PyFloat.finite 1), RawCell.absent]⟩),
    (ColName.str "m", ⟨Dtype.object, [RawCell.int 5, RawCell.text "x"]⟩)]⟩

def env7 : ConvEnv :=
  ⟨"seven.xlsx", none, true, 10, Except.ok df7, true, true, true, Except.ok 5, 5, 9⟩

/-- An object column holding the spec's sentinel texts and an infinity. -/
def dfSent : DataFrame :=
  ⟨[(ColName.str "s",
     ⟨Dtype.object,
      [RawCell.text "null", RawCell.text " NaN ", RawCell.text "",
       RawCell.float PyFloat.posInf]⟩)]⟩

/-- The written table of `env1`: the WHOLE frame, clean integer column
included, stringified by the fallback. -/
def t1lit : ArrowTable :=
  ⟨[⟨"a", PaType.utf8, true⟩, ⟨"m", PaType.utf8, true⟩],
   [[PaValue.str "1", PaValue.str "2"], [PaValue.str "5", PaValue.str "x"]]⟩

/-- The written table of `env7`: the float column's missing value became the
string "nan". -/
def t7lit : ArrowTable :=
  ⟨[⟨"f", PaType.utf8, true⟩, ⟨"m", PaType.utf8, true⟩],
   [[PaValue.str "1.0", PaValue.str "nan"], [PaValue.str "5", PaValue.str "x"]]⟩

/-! Helper lemmas shared by the claim theorems. -/

theorem cleanColumn_cells (c : PdColumn) : (cleanColumn c).cells = c.cells := by
  unfold cleanColumn
  split <;> rfl

theorem all_implies {α : Type} {l : List α} {p q : α → Bool}
    (h : l.all p = true) (hpq : ∀ x, p x = true → q x = true) : l.all q = true := by
  rw [List.all_eq_true] at h ⊢
  exact fun x hx => hpq x (h x hx)

theorem objectInference_texts (ss : List String) :
    objectInference (ss.map RawCell.text) = Except.ok PaType.utf8 := by
  have h1 : ((ss.map RawCell.text).filter isPresent).all isTextCell = true := by
    rw [List.all_eq_true]
    intro x hx
    rcases List.mem_map.mp (List.mem_of_mem_filter hx) with ⟨s, _, rfl⟩
    rfl
  unfold objectInference
  rw [if_pos h1]

theorem inferColumn_astype (c : PdColumn) :
    inferColumn ⟨Dtype.object, c.cells.map (fun x => RawCell.text (strOfCell c.dtype x))⟩ =
      Except.ok (PaType.utf8, c.cells.map (fun x => PaValue.str (strOfCell c.dtype x))) := by
  have hmm : c.cells.map (fun x => RawCell.text (strOfCell c.dtype x)) =
      (c.cells.map (strOfCell c.dtype)).map RawCell.text := by
    rw [List.map_map]; rfl
  show (match objectInference (c.cells.map (fun x => RawCell.text (strOfCell c.dtype x))) with
    | Except.error e => Except.error e
    | Except.ok ty =>
      Except.ok (ty,
        (c.cells.map (fun x => RawCell.text (strOfCell c.dtype x))).map arrowValueOfCell)) = _
  rw [hmm, objectInference_texts]
  rw [List.map_map, List.map_map]
  rfl

theorem inferColumns_astype (l : List (ColName × PdColumn)) :
    inferColumns (l.map (fun p => (p.1, (⟨Dtype.object,
        p.2.cells.map (fun x => RawCell.text (strOfCell p.2.dtype x))⟩ : PdColumn)))) =
      Except.ok (l.map (fun p => (p.1.toStr, PaType.utf8,
        p.2.cells.map (fun x => PaValue.str (strOfCell p.2.dtype x))))) := by
  induction l with
  | nil => rfl
  | cons p rest ih =>
    simp only [List.map_cons, inferColumns, inferColumn_astype, ih]

/-- The string fallback of src/converter.py lines 161-164 always succeeds and
produces an all-utf8, all-nullable table whose every buffer entry is the
textual form of the original cell. -/
theorem fallback_table (df : DataFrame) :
    from_pandas_infer (astypeStr df) =
      Except.ok
        { schema := df.cols.map (fun p => ⟨p.1.toStr, PaType.utf8, true⟩),
          columns := df.cols.map
            (fun p => p.2.cells.map (fun x => PaValue.str (strOfCell p.2.dtype x))) } := by
  unfold from_pandas_infer astypeStr
  rw [inferColumns_astype]
  simp only [List.map_map]
  rfl

theorem inferColumn_ok_snd (c : PdColumn) (r : PaType × List PaValue)
    (h : inferColumn c = Except.ok r) : r.2 = c.cells.map arrowValueOfCell := by
  unfold inferColumn at h
  cases hd : c.dtype <;> rw [hd] at h
  case object =>
    cases ho : objectInference c.cells <;> rw [ho] at h
    · cases h
    · cases h; rfl
  all_goals (cases h; rfl)

theorem inferColumns_ok (l : List (ColName × PdColumn))
    (entries : List (String × PaType × List PaValue))
    (h : inferColumns l = Except.ok entries) :
    entries.map (fun q => q.2.2) = l.map (fun p => p.2.cells.map arrowValueOfCell) ∧
    ∀ p ∈ l, ∃ r, inferColumn p.2 = Except.ok r := by
  induction l generalizing entries with
  | nil =>
    cases h
    exact ⟨rfl, by intro p hp; cases hp⟩
  | cons p rest ih =>
    unfold inferColumns at h
    cases hc : inferColumn p.2 <;> rw [hc] at h
    · cases h
    · cases hr : inferColumns rest <;> rw [hr] at h
      · cases h
      · cases h
        rcases ih _ hr with ⟨h1, h2⟩
        refine ⟨?_, ?_⟩
        · simp only [List.map_cons, h1, List.cons.injEq, and_true]
          exact inferColumn_ok_snd p.2 _ hc
        · intro q hq
          rcases List.mem_cons.mp hq with hq | hq
          · exact ⟨_, hq ▸ hc⟩
          · exact h2 q hq

theorem nonstr_of_nontext (cells : List RawCell)
    (h : ∀ x ∈ cells, isTextCell x = false) :
    (cells.map arrowValueOfCell).all (fun v => !v.isStr) = true := by
  rw [List.all_eq_true]
  intro v hv
  rcases List.mem_map.mp hv with ⟨x, hx, rfl⟩
  have hh := h x hx
  cases x <;> simp_all [isTextCell, arrowValueOfCell, PaValue.isStr]

theorem strnull_of_textabsent (cells : List RawCell)
    (h : ∀ x ∈ cells, isTextCell x = true ∨ x = RawCell.absent) :
    (cells.map arrowValueOfCell).all (fun v => v.isStr || v.isNull) = true := by
  rw [List.all_eq_true]
  intro v hv
  rcases List.mem_map.mp hv with ⟨x, hx, rfl⟩
  rcases h x hx with hh | hh
  · cases x <;> simp_all [isTextCell, arrowValueOfCell, PaValue.isStr, PaValue.isNull]
  · subst hh; rfl

theorem objectInference_ok_cases (cells : List RawCell) (ty : PaType)
    (h : objectInference cells = Except.ok ty) :
    (cells.filter isPresent).all isTextCell = true ∨
    (cells.filter isPresent).all (fun x => !isTextCell x) = true := by
  unfold objectInference at h
  by_cases h1 : (cells.filter isPresent).all isTextCell = true
  · exact Or.inl h1
  · right
    rw [if_neg h1] at h
    by_cases h2 : (cells.filter isPresent).all isIntCell = true
    · exact all_implies h2 (by intro x hx; cases x <;> simp_all [isIntCell, isTextCell])
    · rw [if_neg h2] at h
      by_cases h3 : (cells.filter isPresent).all isBoolCell = true
      · exact all_implies h3 (by intro x hx; cases x <;> simp_all [isBoolCell, isTextCell])
      · rw [if_neg h3] at h
        by_cases h4 : (cells.filter isPresent).all isNumCell = true
        · exact all_implies h4 (by intro x hx; cases x <;> simp_all [isNumCell, isTextCell])
        · rw [if_neg h4] at h
          cases h

theorem hom_of_inferColumn (c : PdColumn) (r : PaType × List PaValue)
    (hwf : columnWF c = true) (h : inferColumn c = Except.ok r) :
    columnHomogeneous (c.cells.map arrowValueOfCell) = true := by
  unfold columnHomogeneous
  unfold inferColumn at h
  cases hd : c.dtype <;> rw [hd] at h
  case object =>
    cases ho : objectInference c.cells <;> rw [ho] at h
    · cases h
    · rcases objectInference_ok_cases c.cells _ ho with hc | hc
      · rw [Bool.or_eq_true]
        left
        apply strnull_of_textabsent
        intro x hx
        by_cases hp : isPresent x = true
        · left
          exact List.all_eq_true.mp hc x (List.mem_filter.mpr ⟨hx, hp⟩)
        · right
          cases x <;> simp_all [isPresent]
      · rw [Bool.or_eq_true]
        right
        apply nonstr_of_nontext
        intro x hx
        by_cases hp : isPresent x = true
        · have := List.all_eq_true.mp hc x (List.mem_filter.mpr ⟨hx, hp⟩)
          simpa using this
        · cases x <;> simp_all [isPresent, isTextCell]
  all_goals {
    rw [Bool.or_eq_true]
    right
    apply nonstr_of_nontext
    intro x hx
    have hm := List.all_eq_true.mp (by unfold columnWF at hwf; exact hwf) x hx
    rw [hd] at hm
    cases x <;> simp_all [cellMatchesDtype, isTextCell]
  }

theorem cleanColumn_WF (c : PdColumn) (h : columnWF c = true) :
    columnWF (cleanColumn c) = true := by
  by_cases hi : is_integer_dtype c.dtype = true
  · have hd : c.dtype = Dtype.int64 ∨ c.dtype = Dtype.intNullable := by
      cases hx : c.dtype <;> simp_all [is_integer_dtype]
    unfold cleanColumn
    rw [if_pos hi]
    unfold columnWF at h ⊢
    dsimp only
    rw [List.all_eq_true] at h ⊢
    intro x hx
    have hh := h x hx
    rcases hd with hd | hd <;> rw [hd] at hh <;> (cases x <;> simp_all [cellMatchesDtype])
  · unfold cleanColumn
    rw [if_neg hi]
    exact h

theorem clean_WF (df : DataFrame) (h : dfWF df = true) :
    dfWF (clean_dataframe_for_powerbi df) = true := by
  unfold dfWF at h ⊢
  unfold clean_dataframe_for_powerbi
  rw [List.all_eq_true] at h ⊢
  intro p hp
  rcases List.mem_map.mp hp with ⟨q, hq, rfl⟩
  exact cleanColumn_WF q.2 (h q hq)

theorem from_pandas_ok_shape (df : DataFrame) (t : ArrowTable)
    (h : from_pandas_infer df = Except.ok t) :
    t.schema.all (fun f => f.nullable) = true ∧
    t.columns = df.cols.map (fun p => p.2.cells.map arrowValueOfCell) ∧
    (∀ p ∈ df.cols, ∃ r, inferColumn p.2 = Except.ok r) := by
  unfold from_pandas_infer at h
  cases hi : inferColumns df.cols <;> rw [hi] at h
  · cases h
  · cases h
    rcases inferColumns_ok df.cols _ hi with ⟨h1, h2⟩
    refine ⟨?_, h1, h2⟩
    rw [List.all_eq_true]
    intro f hf
    rcases List.mem_map.mp hf with ⟨q, _, rfl⟩
    rfl

theorem mainTable_ok_shape (env : ConvEnv) (df : DataFrame) (t : ArrowTable)
    (h : mainTableResult env df = Except.ok t) :
    ∃ t0, from_pandas_infer df = Except.ok t0 ∧ t = forceNullable t0 := by
  unfold mainTableResult at h
  by_cases hfp : env.fromPandasOk = false
  · rw [if_pos hfp] at h; cases h
  · rw [if_neg hfp] at h
    cases hi : from_pandas_infer df with
    | error e => rw [hi] at h; cases h
    | ok t0 =>
      rw [hi] at h
      have h2 : (if env.castOk = false
          then (Except.error "cast to nullable schema failed" : Except String ArrowTable)
          else Except.ok (forceNullable t0)) = Except.ok t := h
      by_cases hc : env.castOk = false
      · rw [if_pos hc] at h2; cases h2
      · rw [if_neg hc] at h2
        cases h2
        exact ⟨t0, rfl, rfl⟩

theorem forceNullable_nullable (t : ArrowTable) :
    (forceNullable t).schema.all (fun f => f.nullable) = true := by
  unfold forceNullable
  rw [List.all_eq_true]
  intro f hf
  rcases List.mem_map.mp hf with ⟨g, _, rfl⟩
  rfl

theorem tableStage_cases (env : ConvEnv) (df : DataFrame) (t : ArrowTable)
    (h : tableStageResult env df = Except.ok t) :
    mainTableResult env df = Except.ok t ∨
    (∃ e, mainTableResult env df = Except.error e ∧
      from_pandas_infer (astypeStr df) = Except.ok t) := by
  unfold tableStageResult at h
  cases hm : mainTableResult env df <;> rw [hm] at h
  · exact Or.inr ⟨_, rfl, h⟩
  · cases h; exact Or.inl rfl

theorem written_some (env : ConvEnv) (s : Bool) (t : ArrowTable) :
    (convert_excel_to_parquet env s).written = some t ↔
      env.fileExists = true ∧ ∃ df, env.readResult = Except.ok df ∧
        tableStageResult env (clean_dataframe_for_powerbi df) = Except.ok t := by
  unfold convert_excel_to_parquet
  cases hfe : env.fileExists
  · simp
  · simp only [Bool.true_eq_false, if_false, true_and]
    cases hr : env.readResult
    · simp
    · case ok df =>
      cases ht : tableStageResult env (clean_dataframe_for_powerbi df)
      · simp [ht]
      · cases hw : env.writeOk
        · simp [ht]
        · cases hos : env.outputSizeResult <;> simp [ht]

/-! Claim theorems. -/

/-- Claim C2, counterexample: sentinel texts ("null", " NaN ", "") and the
IEEE infinity pass through `clean_dataframe_for_powerbi` unchanged — none of
them collapses to the absent value, refuting the claimed normalization at this
concrete input. -/
theorem c2_counterexample :
    (clean_dataframe_for_powerbi dfSent).cols.map (fun p => p.2.cells) =
      [[RawCell.text "null", RawCell.text " NaN ", RawCell.text "",
        RawCell.float PyFloat.posInf]] ∧
    RawCell.text "null" ≠ RawCell.absent ∧
    RawCell.float PyFloat.posInf ≠ RawCell.absent := by
  exact ⟨by decide, by decide, by decide⟩

/-- Claim C2 (amended): normalization is a pure pass-through on cell values —
`clean_dataframe_for_powerbi` collapses nothing to the absent value (neither
infinities, NaN, nor sentinel texts); it only stringifies column names and
widens integer dtypes to nullable Int64. -/
theorem c2_normalization_passthrough (df : DataFrame) :
    (clean_dataframe_for_powerbi df).cols.map (fun p => p.2.cells) =
      df.cols.map (fun p => p.2.cells) := by
  unfold clean_dataframe_for_powerbi
  rw [List.map_map]
  have hfg : ((fun p : ColName × PdColumn => p.2.cells) ∘
      fun p : ColName × PdColumn => (ColName.str p.1.toStr, cleanColumn p.2)) =
      fun p : ColName × PdColumn => p.2.cells := by
    funext p
    exact cleanColumn_cells p.2
  rw [hfg]

/-- Claim C6, counterexample: the float64 column [1.0, 2.0, inf, 4.0] (all
present values integral) is written as Float64, not Int64, and the infinity is
passed through as a float value, not normalized to null. -/
theorem c6_counterexample :
    (convert_excel_to_parquet env6 true).written =
      some ⟨[⟨"c", PaType.float64, true⟩],
        [[PaValue.float (PyFloat.finite 1), PaValue.float (PyFloat.finite 2),
          PaValue.float PyFloat.posInf, PaValue.float (PyFloat.finite 4)]]⟩ ∧
    PaType.float64 ≠ PaType.int64 ∧
    PaValue.float PyFloat.posInf ≠ PaValue.null := by
  exact ⟨by decide, by decide, by decide⟩

/-- Claim C6 (amended): the resolved column type depends only on the pandas
dtype, not on value integrality — a float64 column keeps Float64 (the code
deliberately leaves floats alone), only integer-dtyped columns map to Int64,
and infinities pass through the value conversion unchanged. -/
theorem c6_dtype_based_resolution (c : PdColumn) :
    (c.dtype = Dtype.float64 → cleanColumn c = c ∧
      inferPaTypeOfDtype (cleanColumn c).dtype = PaType.float64) ∧
    (is_integer_dtype c.dtype = true →
      inferPaTypeOfDtype (cleanColumn c).dtype = PaType.int64) ∧
    arrowValueOfCell (RawCell.float PyFloat.posInf) = PaValue.float PyFloat.posInf := by
  refine ⟨?_, ?_, rfl⟩
  · intro hd
    unfold cleanColumn
    rw [if_neg (by rw [hd]; simp [is_integer_dtype])]
    refine ⟨rfl, ?_⟩
    rw [hd]
    rfl
  · intro hi
    unfold cleanColumn
    rw [if_pos hi]
    rfl

/-- Claim C6 witness: the amended theorem applied to a concrete float64 column
and a concrete int64 column. -/
theorem c6_witness :
    (cleanColumn ⟨Dtype.float64, []⟩ = ⟨Dtype.float64, []⟩ ∧
      inferPaTypeOfDtype (cleanColumn ⟨Dtype.float64, []⟩).dtype = PaType.float64) ∧
    inferPaTypeOfDtype (cleanColumn ⟨Dtype.int64, []⟩).dtype = PaType.int64 :=
  ⟨(c6_dtype_based_resolution ⟨Dtype.float64, []⟩).1 rfl,
   (c6_dtype_based_resolution ⟨Dtype.int64, []⟩).2.1 rfl⟩

/-- Claim C9, counterexample: a worker cancelled before `run` starts emits NO
outcome at all — the `finished` signal never fires — refuting the claim that
an honoured cancellation reports a cancellation outcome. -/
theorem c9_counterexample :
    ConversionWorker.run { cancelled := true } envOk =
      { finishedSignal := none, written := none, progressSignals := [] } ∧
    (ConversionWorker.run { cancelled := true } envOk).finishedSignal.isSome = false := by
  exact ⟨by decide, by decide⟩

/-- Claim C9 (amended): an honoured cancellation (only possible before `run`
begins) stops the worker before every stage — the writer is never invoked, no
artifact and no progress are produced — but the worker emits no outcome at
all; an uncancelled worker runs the conversion to completion and reports its
result. -/
theorem c9_cancellation (env : ConvEnv) :
    ConversionWorker.run { cancelled := true } env =
      { finishedSignal := none, written := none, progressSignals := [] } ∧
    (ConversionWorker.run { cancelled := false } env).finishedSignal =
      some (convert_excel_to_parquet env true).result := by
  exact ⟨rfl, rfl⟩

/-- Claim C3 (confirmed): every field of any schema handed to the writer is
nullable — in the main path every field is forced `with_nullable(True)` before
the cast, and the string-fallback path inherits pyarrow's all-nullable
inference; the (uncalled) `create_powerbi_compatible_schema` also marks every
field nullable. -/
theorem c3_nullable_everywhere (env : ConvEnv) (s : Bool) (t : ArrowTable) (df : DataFrame) :
    ((convert_excel_to_parquet env s).written = some t →
      t.schema.all (fun f => f.nullable) = true) ∧
    (create_powerbi_compatible_schema df).all (fun f => f.nullable) = true := by
  constructor
  · intro hw
    rcases (written_some env s t).mp hw with ⟨_, df0, _, ht⟩
    rcases tableStage_cases env _ t ht with hm | ⟨e, _, hf⟩
    · rcases mainTable_ok_shape env _ t hm with ⟨t0, _, rfl⟩
      exact forceNullable_nullable t0
    · exact (from_pandas_ok_shape _ t hf).1
  · rw [List.all_eq_true]
    intro f hf
    rcases List.mem_map.mp hf with ⟨q, _, rfl⟩
    rfl

/-- Claim C3 witness: the all-ok environment writes `tOkTable`, whose single
field is nullable. -/
theorem c3_witness :
    (convert_excel_to_parquet envOk true).written = some tOkTable ∧
    tOkTable.schema.all (fun f => f.nullable) = true :=
  ⟨by decide, (c3_nullable_everywhere envOk true tOkTable ⟨[]⟩).1 (by decide)⟩

/-- Claim C4 (confirmed): the `except` handler turns every raising stage into
a `success=false` outcome carrying a message and the elapsed time up to the
failure point (the non-raising missing-file early return aside), and the
writer only ever receives a table after the read and the complete
schema/buffer construction succeeded. -/
theorem c4_failure_outcome (env : ConvEnv) (s : Bool) (t : ArrowTable) :
    ((convert_excel_to_parquet env s).result.success = false →
      (convert_excel_to_parquet env s).result.error.isSome = true) ∧
    (env.fileExists = true → (convert_excel_to_parquet env s).result.success = false →
      (convert_excel_to_parquet env s).result.elapsed = env.tEnd - env.tStart) ∧
    ((convert_excel_to_parquet env s).written = some t →
      env.fileExists = true ∧ ∃ df, env.readResult = Except.ok df ∧
        tableStageResult env (clean_dataframe_for_powerbi df) = Except.ok t) := by
  refine ⟨?_, ?_, (written_some env s t).mp⟩
  all_goals {
    unfold convert_excel_to_parquet
    cases hfe : env.fileExists
    · simp [failureResult]
    · cases hr : env.readResult
      · simp [failureResult]
      · case ok df =>
        cases ht : tableStageResult env (clean_dataframe_for_powerbi df)
        · simp [ht, failureResult]
        · cases hw : env.writeOk
          · simp [ht, hw, failureResult]
          · cases hos : env.outputSizeResult <;> simp [ht, hw, hos, failureResult]
  }

/-- Claim C4 witness: a failing read yields a failure outcome with an error
message and the elapsed time, and the all-ok environment shows the writer
receiving the fully built table. -/
theorem c4_witness :
    (convert_excel_to_parquet envReadFail true).result.error.isSome = true ∧
    (convert_excel_to_parquet envReadFail true).result.elapsed =
      envReadFail.tEnd - envReadFail.tStart ∧
    (envOk.fileExists = true ∧ ∃ df, envOk.readResult = Except.ok df ∧
      tableStageResult envOk (clean_dataframe_for_powerbi df) = Except.ok tOkTable) :=
  ⟨(c4_failure_outcome envReadFail true tOkTable).1 (by decide),
   (c4_failure_outcome envReadFail true tOkTable).2.1 (by decide) (by decide),
   (c4_failure_outcome envOk true tOkTable).2.2 (by decide)⟩

/-- Claim C10 (confirmed): every failure outcome (both the missing-file early
return and the `except` handler) leaves `output_file=None` and
`output_size=0` and carries a non-None error string. -/
theorem c10_failure_fields (env : ConvEnv) (s : Bool) :
    (convert_excel_to_parquet env s).result.success = false →
    (convert_excel_to_parquet env s).result.output_file = none ∧
    (convert_excel_to_parquet env s).result.output_size = 0 ∧
    (convert_excel_to_parquet env s).result.error.isSome = true := by
  unfold convert_excel_to_parquet
  cases hfe : env.fileExists
  · simp [failureResult]
  · cases hr : env.readResult
    · simp [failureResult]
    · case ok df =>
      cases ht : tableStageResult env (clean_dataframe_for_powerbi df)
      · simp [ht, failureResult]
      · cases hw : env.writeOk
        · simp [ht, hw, failureResult]
        · cases hos : env.outputSizeResult <;> simp [ht, hw, hos, failureResult]

/-- Claim C10 witness: the missing-file failure reports no output descriptor,
zero output size, and an error message. -/
theorem c10_witness :
    (convert_excel_to_parquet envMissing true).result.output_file = none ∧
    (convert_excel_to_parquet envMissing true).result.output_size = 0 ∧
    (convert_excel_to_parquet envMissing true).result.error.isSome = true :=
  c10_failure_fields envMissing true (by decide)

/-- Claim C8, counterexample: the fullest possible progress sequence is
[10, 30, 50, 50, 80, 100] — the checkpoint 0 is never reported and 50 is
reported twice (the call is duplicated in the source), so the sequence is not
the claimed [0, 10, 30, 50, 80, 100]. -/
theorem c8_counterexample :
    (convert_excel_to_parquet envOk true).events = [10, 30, 50, 50, 80, 100] ∧
    ([10, 30, 50, 50, 80, 100] : List Nat) ≠ [0, 10, 30, 50, 80, 100] ∧
    (0 : Nat) ∉ ([10, 30, 50, 50, 80, 100] : List Nat) := by
  exact ⟨by decide, by decide, by decide⟩

/-- Claim C8 (amended): the reported progress sequence is always a prefix of
10, 30, 50, 50, 80, 100 (never 0; 50 twice), hence monotonically
non-decreasing, and omitting the sink changes nothing but the events: the
outcome and the written table are identical with and without a sink. -/
theorem c8_progress_checkpoints (env : ConvEnv) :
    ((convert_excel_to_parquet env true).events = [] ∨
     (convert_excel_to_parquet env true).events = [10] ∨
     (convert_excel_to_parquet env true).events = [10, 30, 50, 50] ∨
     (convert_excel_to_parquet env true).events = [10, 30, 50, 50, 80] ∨
     (convert_excel_to_parquet env true).events = [10, 30, 50, 50, 80, 100]) ∧
    List.Chain' (fun a b => a ≤ b) (convert_excel_to_parquet env true).events ∧
    (convert_excel_to_parquet env false).events = [] ∧
    (convert_excel_to_parquet env false).result = (convert_excel_to_parquet env true).result ∧
    (convert_excel_to_parquet env false).written = (convert_excel_to_parquet env true).written := by
  unfold convert_excel_to_parquet
  cases hfe : env.fileExists
  · refine ⟨Or.inl rfl, ?_, rfl, rfl, rfl⟩
    show List.Chain' (fun a b => a ≤ b) ([] : List Nat)
    norm_num [List.chain'_cons]
  · cases hr : env.readResult
    · refine ⟨Or.inr (Or.inl rfl), ?_, rfl, rfl, rfl⟩
      show List.Chain' (fun a b => a ≤ b) ([10] : List Nat)
      norm_num [List.chain'_cons]
    · case ok df =>
      cases ht : tableStageResult env (clean_dataframe_for_powerbi df)
      · simp only [ht]
        refine ⟨Or.inr (Or.inr (Or.inl rfl)), ?_, rfl, rfl, rfl⟩
        show List.Chain' (fun a b => a ≤ b) ([10, 30, 50, 50] : List Nat)
        norm_num [List.chain'_cons]
      · cases hw : env.writeOk
        · simp only [ht, hw]
          refine ⟨Or.inr (Or.inr (Or.inr (Or.inl rfl))), ?_, rfl, rfl, rfl⟩
          show List.Chain' (fun a b => a ≤ b) ([10, 30, 50, 50, 80] : List Nat)
          norm_num [List.chain'_cons]
        · cases hos : env.outputSizeResult <;> simp only [ht, hw, hos] <;>
            (refine ⟨Or.inr (Or.inr (Or.inr (Or.inr rfl))), ?_, rfl, rfl, rfl⟩
             show List.Chain' (fun a b => a ≤ b) ([10, 30, 50, 50, 80, 100] : List Nat)
             norm_num [List.chain'_cons])

/-- Claim C1, counterexample: with a clean int64 column "a" next to a mixed
object column "m", the arrow conversion failure triggers the fallback of
src/converter.py line 163, which stringifies the WHOLE frame — the
non-offending column "a" is written as utf8 strings, not as Int64, refuting
"columns other than the offending one keep their resolved types". -/
theorem c1_counterexample :
    (convert_excel_to_parquet env1 true).written = some t1lit ∧
    t1lit.schema = [⟨"a", PaType.utf8, true⟩, ⟨"m", PaType.utf8, true⟩] ∧
    PaType.utf8 ≠ PaType.int64 := by
  exact ⟨by decide, by decide, by decide⟩

/-- Claim C1 (amended): a conversion failure triggers a TABLE-level fallback,
not a column-level one: whenever the main arrow conversion of the cleaned
frame fails, every column of the written table — the offending one and all
others — is demoted to Utf8String with every value stringified; homogeneity
does hold (no written column of a dtype-coherent frame mixes string values
with native values). -/
theorem c1_table_level_fallback (env : ConvEnv) (s : Bool) (df : DataFrame)
    (t : ArrowTable) (msg : String) (hr : env.readResult = Except.ok df) :
    ((convert_excel_to_parquet env s).written = some t → dfWF df = true →
      t.columns.all columnHomogeneous = true) ∧
    (mainTableResult env (clean_dataframe_for_powerbi df) = Except.error msg →
      (convert_excel_to_parquet env s).written = some t →
      t.schema.all (fun f => decide (f.typ = PaType.utf8)) = true ∧
      t.columns.all (fun col => col.all PaValue.isStr) = true) := by
  constructor
  · intro hw hwf
    rcases (written_some env s t).mp hw with ⟨_, df0, hr0, ht⟩
    injection (hr.symm.trans hr0) with hdf
    subst hdf
    rcases tableStage_cases env _ t ht with hm | ⟨e, hme, hf⟩
    · rcases mainTable_ok_shape env _ t hm with ⟨t0, hfp, rfl⟩
      rcases from_pandas_ok_shape _ t0 hfp with ⟨_, hcols, hinf⟩
      show ((forceNullable t0).columns.all columnHomogeneous) = true
      unfold forceNullable
      dsimp only
      rw [hcols, List.all_eq_true]
      intro col hcol
      rcases List.mem_map.mp hcol with ⟨p, hp, rfl⟩
      have hwfc : columnWF p.2 = true := by
        have hcw := clean_WF df hwf
        unfold dfWF at hcw
        exact List.all_eq_true.mp hcw p hp
      rcases hinf p hp with ⟨r, hrr⟩
      exact hom_of_inferColumn p.2 r hwfc hrr
    · rw [fallback_table] at hf
      injection hf with hft
      subst hft
      rw [List.all_eq_true]
      intro col hcol
      rcases List.mem_map.mp hcol with ⟨p, hp, rfl⟩
      unfold columnHomogeneous
      rw [Bool.or_eq_true]
      left
      rw [List.all_eq_true]
      intro v hv
      rcases List.mem_map.mp hv with ⟨x, _, rfl⟩
      rfl
  · intro hme hw
    rcases (written_some env s t).mp hw with ⟨_, df0, hr0, ht⟩
    injection (hr.symm.trans hr0) with hdf
    subst hdf
    rcases tableStage_cases env _ t ht with hm | ⟨e, hme2, hf⟩
    · rw [hme] at hm
      cases hm
    · rw [fallback_table] at hf
      injection hf with hft
      subst hft
      constructor
      · rw [List.all_eq_true]
        intro f hf2
        rcases List.mem_map.mp hf2 with ⟨p, hp, rfl⟩
        rfl
      · rw [List.all_eq_true]
        intro col hcol
        rcases List.mem_map.mp hcol with ⟨p, hp, rfl⟩
        rw [List.all_eq_true]
        intro v hv
        rcases List.mem_map.mp hv with ⟨x, _, rfl⟩
        rfl

/-- Claim C1 witness: the amended theorem applied to `env1` — the whole
written table is utf8 strings, and homogeneity holds there. -/
theorem c1_witness :
    (t1lit.schema.all (fun f => decide (f.typ = PaType.utf8)) = true ∧
      t1lit.columns.all (fun col => col.all PaValue.isStr) = true) ∧
    t1lit.columns.all columnHomogeneous = true :=
  ⟨(c1_table_level_fallback env1 true df1 t1lit
      "pyarrow.lib.ArrowInvalid: could not convert mixed object column"
      (by decide)).2 (by decide) (by decide),
   (c1_table_level_fallback env1 true df1 t1lit
      "pyarrow.lib.ArrowInvalid: could not convert mixed object column"
      (by decide)).1 (by decide) (by decide)⟩

/-- Claim C7, counterexample: in the string fallback (forced here by the mixed
object column), the float column's missing value is written as the STRING
"nan", not as a null — `df.astype(str)` stringifies missing markers. -/
theorem c7_counterexample :
    (convert_excel_to_parquet env7 true).written = some t7lit ∧
    t7lit.columns = [[PaValue.str "1.0", PaValue.str "nan"],
      [PaValue.str "5", PaValue.str "x"]] ∧
    PaValue.str "nan" ≠ PaValue.null := by
  exact ⟨by decide, by decide, by decide⟩

/-- Claim C7 (amended): in the direct conversion path an absent cell does map
to an arrow null; but when the table-level string fallback triggers, NO value
of the written table is null — every absent value is converted to its pandas
string rendering ("nan", "NaT", "<NA>" or "None") rather than kept null. -/
theorem c7_fallback_stringifies_nulls (env : ConvEnv) (s : Bool) (df : DataFrame)
    (t : ArrowTable) (msg : String) :
    arrowValueOfCell RawCell.absent = PaValue.null ∧
    (env.readResult = Except.ok df →
      mainTableResult env (clean_dataframe_for_powerbi df) = Except.error msg →
      (convert_excel_to_parquet env s).written = some t →
      t.columns.all (fun col => col.all (fun v => !v.isNull)) = true) := by
  refine ⟨rfl, ?_⟩
  intro hr hme hw
  rcases (written_some env s t).mp hw with ⟨_, df0, hr0, ht⟩
  injection (hr.symm.trans hr0) with hdf
  subst hdf
  rcases tableStage_cases env _ t ht with hm | ⟨e, hme2, hf⟩
  · rw [hme] at hm
    cases hm
  · rw [fallback_table] at hf
    injection hf with hft
    subst hft
    rw [List.all_eq_true]
    intro col hcol
    rcases List.mem_map.mp hcol with ⟨p, hp, rfl⟩
    rw [List.all_eq_true]
    intro v hv
    rcases List.mem_map.mp hv with ⟨x, _, rfl⟩
    rfl

/-- Claim C7 witness: the amended theorem applied to `env7` — no null survives
the fallback. -/
theorem c7_witness :
    arrowValueOfCell RawCell.absent = PaValue.null ∧
    t7lit.columns.all (fun col => col.all (fun v => !v.isNull)) = true :=
  ⟨(c7_fallback_stringifies_nulls envOk true okDf tOkTable "m").1,
   (c7_fallback_stringifies_nulls env7 true df7 t7lit
      "pyarrow.lib.ArrowInvalid: could not convert mixed object column").2
      (by decide) (by decide) (by decide)⟩

theorem range_filterMap_get {α : Type} (l : List α) :
    (List.range l.length).filterMap (fun i => l.get? i) = l := by
  induction l with
  | nil => rfl
  | cons a t ih =>
    have h1 : List.range (a :: t).length = 0 :: (List.range t.length).map Nat.succ := by
      rw [List.length_cons, List.range_succ_eq_map]
    rw [h1, List.filterMap_cons]
    show a :: ((List.range t.length).map Nat.succ).filterMap (fun i => (a :: t).get? i) = a :: t
    rw [List.filterMap_map]
    have h2 : ((fun i => (a :: t).get? i) ∘ Nat.succ) = fun i => t.get? i := by
      funext i
      rfl
    rw [h2, ih]

theorem perm_filterMap_get {α : Type} (l : List α) (order : List Nat)
    (h : order.Perm (List.range l.length)) :
    (order.filterMap (fun i => l.get? i)).Perm l := by
  have h2 := h.filterMap (fun i => l.get? i)
  rw [range_filterMap_get] at h2
  exact h2

/-- Claim C5, counterexample: on the empty input collection with the default
worker bound, `convert_multiple` computes `min(cpu, 0) = 0` workers and
`ThreadPoolExecutor` raises ValueError — no empty outcome list is returned,
refuting "including the empty collection". -/
theorem c5_counterexample :
    convert_multiple [] none 4 true [] =
      Except.error "ValueError: max_workers must be greater than 0" := by
  decide

/-- Claim C5 (amended): whenever the resolved worker bound is positive (any
nonempty collection under the default bound, or an explicit positive bound),
`convert_multiple` returns exactly one outcome per input — the completion
order is a permutation of the list of independent per-input conversions, so
one file's outcome never affects another's; but an empty collection under the
default bound raises instead of returning an empty list. -/
theorem c5_batch_outcomes (envs : List ConvEnv) (maxWorkers : Option Nat) (cpu : Nat)
    (hasSink : Bool) (order : List Nat)
    (h0 : resolveWorkers maxWorkers cpu envs.length ≠ 0)
    (h1 : order.Perm (List.range envs.length)) :
    ∃ rs, convert_multiple envs maxWorkers cpu hasSink order = Except.ok rs ∧
      rs.Perm (envs.map (fun e => (convert_excel_to_parquet e hasSink).result)) ∧
      rs.length = envs.length := by
  have hdef : convert_multiple envs maxWorkers cpu hasSink order =
      Except.ok (order.filterMap (fun i =>
        (envs.map (fun e => (convert_excel_to_parquet e hasSink).result)).get? i)) := by
    unfold convert_multiple
    rw [if_neg h0]
  have hperm : (order.filterMap (fun i =>
      (envs.map (fun e => (convert_excel_to_parquet e hasSink).result)).get? i)).Perm
      (envs.map (fun e => (convert_excel_to_parquet e hasSink).result)) := by
    apply perm_filterMap_get
    rw [List.length_map]
    exact h1
  refine ⟨_, hdef, hperm, ?_⟩
  rw [hperm.length_eq, List.length_map]

/-- Claim C5 witness: a singleton batch under the default bound returns
exactly one outcome. -/
theorem c5_witness :
    resolveWorkers none 4 ([envMissing] : List ConvEnv).length ≠ 0 ∧
    ([0] : List Nat).Perm (List.range ([envMissing] : List ConvEnv).length) ∧
    ∃ rs, convert_multiple [envMissing] none 4 true [0] = Except.ok rs ∧
      rs.Perm ([envMissing].map (fun e => (convert_excel_to_parquet e true).result)) ∧
      rs.length = ([envMissing] : List ConvEnv).length :=
  ⟨by decide, by decide,
   c5_batch_outcomes [envMissing] none 4 true [0] (by decide) (by decide)⟩
